import Mathlib

set_option autoImplicit false

deriving instance DecidableEq for Except

namespace Rointe

/-- JSON-like dynamic value, as carried by the loosely typed device payloads
(`device_info["data"]` in rointesdk/device.py) and by write bodies in
rointesdk/rointe_api.py. Numbers are modelled as rationals. -/
inductive JVal where
  | num (q : ℚ)
  | bool (b : Bool)
  | str (s : String)
  | null
  | arr (xs : List JVal)
  | obj (kvs : List (String × JVal))

/-- Python truthiness (`bool(x)` / `if x:`) on a `JVal`. -/
def JVal.truthy : JVal → Bool
  | .num q => decide (q ≠ 0)
  | .bool b => b
  | .str s => decide (s ≠ "")
  | .null => false
  | .arr xs => !xs.isEmpty
  | .obj kvs => !kvs.isEmpty

/-- Python equality (`==`) on `JVal`: numbers and booleans compare across
types (True == 1, False == 0), strings compare as strings, and values of
unrelated types are unequal. -/
def JVal.pyEq : JVal → JVal → Bool
  | .num a, .num b => a == b
  | .num a, .bool b => a == (if b then (1 : ℚ) else 0)
  | .bool a, .num b => (if a then (1 : ℚ) else 0) == b
  | .bool a, .bool b => a == b
  | .str a, .str b => a == b
  | .null, .null => true
  | _, _ => false

/-- Python `float(x)` coercion on a `JVal`: succeeds on numbers and
booleans, fails (raises) otherwise. String-encoded numbers are not
modelled; numeric payload fields are carried as `num`. -/
def JVal.pyFloat : JVal → Option ℚ
  | .num q => some q
  | .bool b => some (if b then 1 else 0)
  | _ => none

/-- Python `int(x)` coercion on a `JVal`: truncation toward zero for
numbers, 0/1 for booleans, digit parsing for strings, failure otherwise. -/
def JVal.pyInt : JVal → Option ℤ
  | .num q => some (if q < 0 then -(⌊-q⌋) else ⌊q⌋)
  | .bool b => some (if b then 1 else 0)
  | .str s => s.toInt?
  | .null => none
  | .arr _ => none
  | .obj _ => none

/-- Modelled from the spec: the `ScheduleMode` enum from
`rointesdk/model.py`, which is not part of the sources; its three values
`COMFORT`, `ECO` and `NONE` (the Unset slot) are the per-hour schedule
classification Comfort / Eco / Unset used throughout `device.py` and
`rointe_api.py`. -/
inductive ScheduleMode where
  | COMFORT
  | ECO
  | NONE
deriving DecidableEq

/-- Raw payload dictionary: a string-keyed map with Python
`dict.get(key, default)` access. -/
def RawData := List (String × JVal)

/-- Python `data.get(k, dflt)`. -/
def RawData.get (data : RawData) (k : String) (dflt : JVal) : JVal :=
  (List.lookup k data).getD dflt

/-- Embeds `RointeDevice.get_current_schedule_mode` (device.py lines 289-330),
with the current weekday (0 = Monday) and hour taken as parameters in
place of the `utils.now()` clock read. Handles both the legacy list shape
and the Nexa dict shape of the `schedule` field, returning `NONE` for an
absent schedule, a missing day entry, a non-string or too-short day
string, or a character other than C / E. -/
def get_current_schedule_mode (schedule : JVal) (day_of_week hour_index : ℕ) : ScheduleMode :=
  -- Guard against empty schedule (`if not self.schedule`)
  if schedule.truthy = false then ScheduleMode.NONE
  else
    -- dict format keyed by stringified weekday, or legacy list format
    let day_schedule? : Option JVal :=
      match schedule with
      | .obj entries => List.lookup (toString day_of_week) entries
      | .arr days => days.get? day_of_week
      | _ => none
    match day_schedule? with
    | none => ScheduleMode.NONE
    | some day_schedule =>
      match day_schedule with
      | .str s =>
        -- `if not day_schedule or not isinstance(day_schedule, str)`
        if s = "" then ScheduleMode.NONE
        else
          -- `if len(day_schedule) <= hour_index`
          match s.data.get? hour_index with
          | none => ScheduleMode.NONE
          | some current_mode =>
            if current_mode = 'C' then ScheduleMode.COMFORT
            else if current_mode = 'E' then ScheduleMode.ECO
            else ScheduleMode.NONE
      | _ => ScheduleMode.NONE

/-- The canonical device model (`RointeDevice`, device.py), restricted to
the fields the verified properties read. `mode` is kept as a raw `JVal`
because the mode-normalization branch passes unknown values through
unchanged; the normal values are `str "manual"` and `str "auto"`. -/
structure RointeDevice where
  id : String
  serialnumber : String
  product_version : String
  power : Bool
  mode : JVal
  temp : ℚ
  temp_probe : ℚ
  comfort_temp : ℚ
  eco_temp : ℚ
  ice_temp : ℚ
  um_max_temp : ℚ
  um_min_temp : ℚ
  user_mode : Bool
  ice_mode : Bool
  schedule : JVal
  status_warming : ℤ

/-- Embeds `RointeDevice.update_data` (device.py lines 140-287), restricted to
the modelled fields, as a function of the raw `data` payload. The result
is `none` when a Python numeric coercion in the modelled fragment would
raise. `product_version` is set once by the constructor and never
touched by `update_data`, so it is a plain parameter here, as are the
identity fields. -/
def update_data (product_version serialnumber device_id : String) (data : RawData) :
    Option RointeDevice :=
  -- power normalization (device.py lines 157-170)
  let power_val := data.get "power" (.bool false)
  let power_int : Option ℤ := power_val.pyInt
  let status := data.get "status" (.str "none")
  let power : Bool :=
    if status.pyEq (.str "off") then false
    else
      match power_int with
      | some n => n == 2
      | none => power_val.truthy
  -- mode normalization (device.py lines 172-178)
  let mode_val := data.get "mode" (.str "manual")
  let mode : JVal :=
    if mode_val.pyEq (.num 0) || mode_val.pyEq (.str "0") then .str "manual"
    else if mode_val.pyEq (.num 1) || mode_val.pyEq (.str "1") then .str "auto"
    else mode_val
  ((data.get "temp" (.num 0)).pyFloat).bind fun temp =>
  ((data.get "temp_probe" (.num temp)).pyFloat).bind fun temp_probe =>
  ((data.get "comfort" (.num temp)).pyFloat).bind fun comfort_temp =>
  ((data.get "eco" (.num temp)).pyFloat).bind fun eco_temp =>
  ((data.get "ice" (.num temp)).pyFloat).bind fun ice_temp =>
  -- User mode settings are only valid for V2 radiators (device.py 188-196)
  (if product_version = "v2" then
      ((data.get "um_max_temp" (.num 0)).pyFloat).bind fun um_max =>
      ((data.get "um_min_temp" (.num 0)).pyFloat).bind fun um_min =>
      some (um_max, um_min, (data.get "user_mode" (.bool false)).truthy)
    else
      some ((0 : ℚ), (0 : ℚ), false)).bind fun um =>
  let ice_mode := (data.get "ice_mode" (.bool false)).truthy
  let schedule := data.get "schedule" (.arr [])
  ((data.get "status_warming" (.num 0)).pyInt).bind fun status_warming =>
  some <|
    RointeDevice.mk device_id serialnumber product_version power mode temp temp_probe
      comfort_temp eco_temp ice_temp um.1 um.2.1 um.2.2 ice_mode schedule status_warming

/-- Embeds `RointeDevice.__init__` (device.py lines 125-138): reads the required
key `product_version` (a string, lowercased) and delegates to
`update_data`. -/
def init_device (device_id serialnumber : String) (data : RawData) : Option RointeDevice :=
  match List.lookup "product_version" data with
  | some (.str s) => update_data s.toLower serialnumber device_id data
  | _ => none

/-- Embeds `RointeDevice.get_effective_target_temperature` (device.py lines
332-354), with the clock passed in as day / hour. In manual mode the
setpoint is returned; otherwise the schedule slot picks the preset
temperature. The trailing `return self.temp` of the source is dead code
because the enum match above it is exhaustive. -/
def RointeDevice.get_effective_target_temperature (d : RointeDevice)
    (day_of_week hour_index : ℕ) : ℚ :=
  if d.mode.pyEq (.str "manual") then d.temp
  else
    match get_current_schedule_mode d.schedule day_of_week hour_index with
    | ScheduleMode.COMFORT => d.comfort_temp
    | ScheduleMode.ECO => d.eco_temp
    | ScheduleMode.NONE => d.ice_temp

/-- Embeds the property `RointeDevice.heating` (device.py lines 356-362): true iff
`status_warming == 2`. -/
def RointeDevice.heating (d : RointeDevice) : Bool :=
  d.status_warming == 2

/-- Embeds `RointeDevice.user_mode_supported` (device.py lines 369-371). -/
def RointeDevice.user_mode_supported (d : RointeDevice) : Bool :=
  d.product_version == "v2"

/-- The home-automation HVAC action vocabulary used by
`RointeHaClimate.hvac_action`. -/
inductive HVACAct where
  | OFF
  | IDLE
  | HEATING
deriving DecidableEq

/-- Embeds `RointeHaClimate.hvac_action` (climate.py lines 128-150): off when not
powered; otherwise idle when the probe reading is at or above the
effective target temperature, heating when it is below. The clock for
the schedule lookup is passed as day / hour. -/
def hvac_action (d : RointeDevice) (day_of_week hour_index : ℕ) : HVACAct :=
  if d.power = false then HVACAct.OFF
  else
    let target := d.get_effective_target_temperature day_of_week hour_index
    let current := d.temp_probe
    if target ≤ current then HVACAct.IDLE
    else HVACAct.HEATING

/-- The `value_fn` of the `heating` binary sensor description
(binary_sensor.py lines 59-64). -/
def heating_sensor_value (d : RointeDevice) : Bool :=
  d.status_warming == 2

/-- Python `round(x)` on a rational: round half to even, as used by
`async_set_temperature` (climate.py line 189). -/
def pyRound (q : ℚ) : ℤ :=
  if Int.fract q < 1 / 2 then ⌊q⌋
  else if 1 / 2 < Int.fract q then ⌊q⌋ + 1
  else if ⌊q⌋ % 2 = 0 then ⌊q⌋ else ⌊q⌋ + 1

/-- Constant `RADIATOR_TEMP_MIN` (climate.py line 41). -/
def RADIATOR_TEMP_MIN : ℚ := 7

/-- Constant `RADIATOR_TEMP_MAX` (climate.py line 42). -/
def RADIATOR_TEMP_MAX : ℚ := 40

/-- Embeds `RointeHaClimate.async_set_temperature` (climate.py lines 176-198):
rejects a requested temperature outside the inclusive range
[`RADIATOR_TEMP_MIN`, `RADIATOR_TEMP_MAX`] before sending anything, and
otherwise transmits the value rounded to the nearest half degree. The
`ok` payload is the value handed to `send_command`; the outcome of the
transmission itself is abstracted away. -/
def async_set_temperature (target_temperature : ℚ) : Except String ℚ :=
  if ¬ (RADIATOR_TEMP_MIN ≤ target_temperature ∧ target_temperature ≤ RADIATOR_TEMP_MAX) then
    Except.error "Invalid set_temperature value"
  else
    Except.ok ((pyRound (target_temperature * 2) : ℚ) / 2)

/-- The uniform success / data-free / error-message result returned by the
API client (`ApiResponse` in rointe_api.py, data field omitted). -/
structure ApiResponse where
  success : Bool
  error_message : Option String
deriving DecidableEq

/-- One backend write issued by the API client: a Firebase HTTP PATCH with
a JSON body, or one Nexa WebSocket write carrying a list of per-field
puts. `_send_patch_request` also stamps `last_sync_datetime_app` (a clock
read) onto every PATCH body at transmission time; that key is not part of
the modelled body. -/
inductive WriteOp where
  | patch (body : List (String × JVal))
  | ws (field_writes : List (String × JVal))

/-- The float-coerced optional field handling of `_write_via_websocket`
(rointe_api.py lines 1364-1366) for one of the keys temp / comfort / eco /
ice: absent key contributes nothing, a present key is coerced with
`float` (failure raises). -/
def ws_float_field (data : List (String × JVal)) (key : String) :
    Option (List (String × JVal)) :=
  match List.lookup key data with
  | none => some []
  | some v => (v.pyFloat).map (fun q => [(key, JVal.num q)])

/-- The field list assembled by `_write_via_websocket` (rointe_api.py
lines 1362-1375): temperature keys as floats, `status` passed through
only when it is off / none, then `mode` and `power` coerced with `int`. -/
def ws_fields (data : List (String × JVal)) : Option (List (String × JVal)) :=
  (ws_float_field data "temp").bind fun t =>
  (ws_float_field data "comfort").bind fun c =>
  (ws_float_field data "eco").bind fun e =>
  (ws_float_field data "ice").bind fun i =>
  let st : List (String × JVal) :=
    match List.lookup "status" data with
    | some v => if v.pyEq (.str "off") || v.pyEq (.str "none") then [("status", v)] else []
    | none => []
  (match List.lookup "mode" data with
    | some v => (v.pyInt).map (fun n => [("mode", JVal.num (n : ℚ))])
    | none => some []).bind fun md =>
  (match List.lookup "power" data with
    | some v => (v.pyInt).map (fun n => [("power", JVal.num (n : ℚ))])
    | none => some []).bind fun pw =>
  some (t ++ c ++ e ++ i ++ st ++ md ++ pw)

/-- Embeds `_write_via_websocket` (rointe_api.py lines 1344-1486) viewed at the
write-trace level: an empty field list returns success without touching
the socket; otherwise the call performs exactly one WebSocket write whose
outcome is supplied by the transport. `none` models a raised coercion
error. -/
def write_via_websocket (data : List (String × JVal)) (outcome : ApiResponse) :
    Option (List WriteOp × ApiResponse) :=
  (ws_fields data).bind fun fields =>
  if fields.isEmpty then
    some ([], ApiResponse.mk true none)
  else
    some ([WriteOp.ws fields], outcome)

/-- Embeds `RointeAPI.set_device_temp` (rointe_api.py lines 762-782). The
transport is abstracted as `outcomes`, giving the response the backend
would return to the k-th write of this call; `auth_ok` is the outcome of
the leading `_ensure_valid_auth` check. -/
def set_device_temp (use_nexa_ws auth_ok : Bool) (device : RointeDevice) (new_temp : ℚ)
    (outcomes : ℕ → ApiResponse) : Option (List WriteOp × ApiResponse) :=
  if auth_ok = false then some ([], ApiResponse.mk false (some "Invalid authentication."))
  else if use_nexa_ws then
    write_via_websocket
      [("temp", .num new_temp), ("mode", .num 0), ("power", .num 2), ("status", .str "none")]
      (outcomes 0)
  else
    some ([WriteOp.patch [("temp", .num new_temp), ("mode", .str "manual"), ("power", .bool true)]],
      outcomes 0)

/-- Embeds `RointeAPI.set_device_mode` (rointe_api.py lines 839-935), at the
write-trace level, with the schedule clock passed as day / hour and the
transport abstracted as `outcomes` (response to the k-th write of this
call). The device is unused in the Nexa off branch beyond key
resolution; on the legacy backend the off-from-manual and heat branches
are two sequential PATCHes where the second is only issued when the
first succeeded. -/
def set_device_mode (use_nexa_ws auth_ok : Bool) (device : RointeDevice) (hvac_mode : String)
    (day_of_week hour_index : ℕ) (outcomes : ℕ → ApiResponse) :
    Option (List WriteOp × ApiResponse) :=
  if auth_ok = false then some ([], ApiResponse.mk false (some "Invalid authentication."))
  else if use_nexa_ws then
    if hvac_mode = "off" then
      write_via_websocket [("power", .num 1), ("mode", .num 0), ("status", .str "off")]
        (outcomes 0)
    else if hvac_mode = "heat" then
      write_via_websocket
        [("temp", .num device.comfort_temp), ("mode", .num 0), ("power", .num 2),
          ("status", .str "none")] (outcomes 0)
    else if hvac_mode = "auto" then
      write_via_websocket [("mode", .num 1), ("power", .num 2), ("status", .str "none")]
        (outcomes 0)
    else some ([], ApiResponse.mk false (some ("Invalid HVAC Mode " ++ hvac_mode ++ ".")))
  else if hvac_mode = "off" then
    -- This depends if the device is in Auto or Manual modes.
    if device.mode.pyEq (.str "auto") then
      some ([WriteOp.patch [("power", .bool false), ("mode", .str "auto"), ("status", .str "off")]],
        outcomes 0)
    else
      -- When turning the device off, the temperature is set first.
      let set_mode_response := outcomes 0
      if set_mode_response.success = false then
        some ([WriteOp.patch [("temp", .num 20)]], set_mode_response)
      else
        some ([WriteOp.patch [("temp", .num 20)],
          WriteOp.patch [("power", .bool false), ("mode", .str "manual"), ("status", .str "off")]],
          outcomes 1)
  else if hvac_mode = "heat" then
    let set_mode_response := outcomes 0
    if set_mode_response.success = false then
      some ([WriteOp.patch [("temp", .num device.comfort_temp)]], set_mode_response)
    else
      some ([WriteOp.patch [("temp", .num device.comfort_temp)],
        WriteOp.patch [("mode", .str "manual"), ("power", .bool true), ("status", .str "none")]],
        outcomes 1)
  else if hvac_mode = "auto" then
    let current_mode := get_current_schedule_mode device.schedule day_of_week hour_index
    let body : List (String × JVal) :=
      if current_mode = ScheduleMode.COMFORT then [("temp", JVal.num device.comfort_temp)]
      else if current_mode = ScheduleMode.ECO then [("temp", JVal.num device.eco_temp)]
      else if device.ice_mode then [("temp", JVal.num device.ice_temp)]
      else [("temp", JVal.num 20)]
    let set_mode_response := outcomes 0
    if set_mode_response.success = false then
      some ([WriteOp.patch body], set_mode_response)
    else
      some ([WriteOp.patch body, WriteOp.patch [("mode", .str "auto"), ("power", .bool true)]],
        outcomes 1)
  else some ([], ApiResponse.mk false (some ("Invalid HVAC Mode " ++ hvac_mode ++ ".")))

/-- One login attempt against a backend, for the login trace. -/
inductive LoginAttempt where
  | legacy
  | nexa
deriving DecidableEq

/-- Embeds `RointeAPI._login_user` (rointe_api.py lines 164-231), at the
attempt-trace level. The legacy verify-password endpoint is abstracted by
its HTTP status and whether its 200-response body carries an `idToken`;
the whole Nexa flow `_login_user_nexa` is abstracted by its result. The
first component lists the backends attempted, in order. -/
def login_user (api_type : String) (legacy_status : ℕ) (legacy_has_id_token : Bool)
    (nexa_result : ApiResponse) : List LoginAttempt × ApiResponse :=
  if api_type = "nexa" then ([LoginAttempt.nexa], nexa_result)
  else
    let failMsg : String :=
      if legacy_status = 400 then "Authentication returned 400 (Bad Request)"
      else "Authentication returned: " ++ toString legacy_status
    if legacy_status ≠ 200 then
      if api_type = "rointe" then
        ([LoginAttempt.legacy], ApiResponse.mk false (some failMsg))
      else if nexa_result.success then
        ([LoginAttempt.legacy, LoginAttempt.nexa], nexa_result)
      else
        ([LoginAttempt.legacy, LoginAttempt.nexa], ApiResponse.mk false (some failMsg))
    else if legacy_has_id_token then
      ([LoginAttempt.legacy], ApiResponse.mk true none)
    else
      ([LoginAttempt.legacy],
        ApiResponse.mk false (some "Authentication returned invalid or empty response"))

/-- One zone of the cached Nexa statistics snapshot: `zone.get("id")`
(absent key gives Python None) and `zone.get("cost", 0)`. -/
structure NexaZone where
  id : Option String
  cost : ℚ
deriving DecidableEq

/-- The cached installation-wide Nexa energy snapshot
(`self._nexa_installation_energy`): `stats.get("energy", 0)` total kWh,
`stats.get("cost", 0)` total cost, and the zone list. -/
structure NexaEnergyStats where
  energy : ℚ
  cost : ℚ
  zones : List NexaZone
deriving DecidableEq

/-- The first-match zone-cost scan of `get_device_energy_from_nexa_stats`
(rointe_api.py lines 1305-1310): 0 when no zone carries the id. -/
def find_zone_cost (zones : List NexaZone) (zone_id : String) : ℚ :=
  match zones.find? (fun z => z.id == some zone_id) with
  | some z => z.cost
  | none => 0

/-- Embeds `RointeAPI.get_device_energy_from_nexa_stats` (rointe_api.py lines
1253-1342) on an already-cached snapshot, with the zone / device
attribution maps passed explicitly. The `ok` payload is the estimated
kWh handed back in the `EnergyConsumptionData` record. -/
def get_device_energy_from_nexa_stats (stats : NexaEnergyStats)
    (device_zone_map : List (String × String))
    (zone_device_map : List (String × List String))
    (device_serial : String) : Except String ℚ :=
  let total_energy := stats.energy
  let total_cost := stats.cost
  let zones := stats.zones
  if total_cost ≤ 0 ∨ zones.isEmpty then Except.error "No cost data to estimate energy"
  else
    -- `zone_id = self._nexa_device_zone_map.get(device_serial)` followed by
    -- the falsy check `if not zone_id` (missing key or empty id string)
    let zone_id? : Option String :=
      match List.lookup device_serial device_zone_map with
      | some z => if z = "" then none else some z
      | none => none
    match zone_id? with
    | none =>
      -- Fall back to total energy divided by device count
      let total_devices : ℕ := (zone_device_map.map (fun p => p.2.length)).sum
      if 0 < total_devices then Except.ok (total_energy / (total_devices : ℚ))
      else Except.ok total_energy
    | some zone_id =>
      let zone_cost := find_zone_cost zones zone_id
      if zone_cost ≤ 0 then Except.error "Zone has no cost data"
      else
        -- the `if total_cost > 0` guard on this product is always true here
        let zone_energy := (zone_cost / total_cost) * total_energy
        let devices_in_zone := (List.lookup zone_id zone_device_map).getD [device_serial]
        let device_count : ℕ := if devices_in_zone.isEmpty then 1 else devices_in_zone.length
        Except.ok (zone_energy / (device_count : ℚ))

/-! Concrete sample values used to evaluate the definitions on closed
inputs. -/

/-- A sample weekly schedule in the legacy list shape: Monday is Comfort
for hours 0-1, Eco for hours 2-3 and unscheduled for the rest. -/
def sampleSchedule : JVal :=
  JVal.arr [JVal.str "CCEEOOOOOOOOOOOOOOOOOOOO"]

/-- A sample device in auto mode following `sampleSchedule`. -/
def devAuto : RointeDevice :=
  RointeDevice.mk "dev-auto" "SN-A" "v2" true (JVal.str "auto") 21 20 23 18 7 0 0 false false
    sampleSchedule 0

/-- A sample device in manual mode, powered on, probe above the setpoint,
with the (stale) `status_warming` field still claiming active heating. -/
def devWarm : RointeDevice :=
  RointeDevice.mk "dev-warm" "SN-W" "v2" true (JVal.str "manual") 20 25 23 18 7 0 0 false false
    (JVal.arr []) 2

/-- A sample raw payload for a non-v2 device that tries to smuggle in
user-mode values. -/
def payloadV1 : RawData :=
  [("temp", JVal.num 20), ("um_max_temp", JVal.num 30), ("um_min_temp", JVal.num 12),
    ("user_mode", JVal.bool true)]

/-- The device produced by `update_data "v1" "SN-9" "dev-9" payloadV1`. -/
def devV1 : RointeDevice :=
  RointeDevice.mk "dev-9" "SN-9" "v1" false (JVal.str "manual") 20 20 20 20 20 0 0 false false
    (JVal.arr []) 0

/-- The energy snapshot of the worked attribution example: 50 kWh and
cost 100 in total, one zone A with cost 40. -/
def statsSample : NexaEnergyStats :=
  NexaEnergyStats.mk 50 100 [NexaZone.mk (some "A") 40]

/-- Device-to-zone map of the attribution example: device X sits in
zone A. -/
def dzmSample : List (String × String) := [("X", "A")]

/-- Zone-to-devices map of the attribution example: zone A holds two
devices. -/
def zdmSample : List (String × List String) := [("A", ["X", "Y"])]

/-- A degenerate snapshot: energy present but zero total cost. -/
def statsDegenerate : NexaEnergyStats :=
  NexaEnergyStats.mk 50 0 [NexaZone.mk (some "A") 40]

/-- A transport whose every write succeeds. -/
def allOk : ℕ → ApiResponse := fun _ => ApiResponse.mk true none

/-- A transport whose first write fails and later writes would succeed. -/
def firstFails : ℕ → ApiResponse := fun k =>
  if k = 0 then ApiResponse.mk false (some "Communications error") else ApiResponse.mk true none

/-! Theorems. -/

/-- Auxiliary: a day string fetched from the list shape determines the
schedule mode through the character at the hour index. -/
theorem get_mode_arr (days : List JVal) (dow hour : ℕ) (s : String)
    (h : days.get? dow = some (JVal.str s)) :
    get_current_schedule_mode (JVal.arr days) dow hour =
      if s = "" then ScheduleMode.NONE
      else
        match s.data.get? hour with
        | none => ScheduleMode.NONE
        | some c =>
          if c = 'C' then ScheduleMode.COMFORT
          else if c = 'E' then ScheduleMode.ECO
          else ScheduleMode.NONE := by
  have hne : days ≠ [] := by
    intro hnil
    rw [hnil] at h
    simp at h
  simp only [get_current_schedule_mode, JVal.truthy, h]
  rw [List.isEmpty_eq_false_iff_exists_mem.mpr]
  · simp
  · cases days with
    | nil => exact absurd rfl hne
    | cons a l => exact ⟨a, List.mem_cons_self a l⟩

/-- Auxiliary: a day string fetched from the dict shape determines the
schedule mode through the character at the hour index. -/
theorem get_mode_obj (entries : List (String × JVal)) (dow hour : ℕ) (s : String)
    (h : List.lookup (toString dow) entries = some (JVal.str s)) :
    get_current_schedule_mode (JVal.obj entries) dow hour =
      if s = "" then ScheduleMode.NONE
      else
        match s.data.get? hour with
        | none => ScheduleMode.NONE
        | some c =>
          if c = 'C' then ScheduleMode.COMFORT
          else if c = 'E' then ScheduleMode.ECO
          else ScheduleMode.NONE := by
  have hne : entries ≠ [] := by
    intro hnil
    rw [hnil] at h
    simp [List.lookup] at h
  simp only [get_current_schedule_mode, JVal.truthy, h]
  rw [List.isEmpty_eq_false_iff_exists_mem.mpr]
  · simp
  · cases entries with
    | nil => exact absurd rfl hne
    | cons a l => exact ⟨a, List.mem_cons_self a l⟩

/-- C1: a device in auto mode takes its effective target temperature from
the current schedule slot, mapping Comfort to `comfort_temp`, Eco to
`eco_temp` and Unset to `ice_temp`, while a device in manual mode takes
the `temp` setpoint regardless of the schedule content. -/
theorem effective_target_by_mode (d : RointeDevice) (dow hour : ℕ) :
    (d.mode = JVal.str "auto" →
      d.get_effective_target_temperature dow hour =
        match get_current_schedule_mode d.schedule dow hour with
        | ScheduleMode.COMFORT => d.comfort_temp
        | ScheduleMode.ECO => d.eco_temp
        | ScheduleMode.NONE => d.ice_temp)
  ∧ (d.mode = JVal.str "manual" →
      d.get_effective_target_temperature dow hour = d.temp) := by
  constructor
  · intro h
    simp only [RointeDevice.get_effective_target_temperature, h]
    rfl
  · intro h
    simp only [RointeDevice.get_effective_target_temperature, h]
    rfl

/-- C1 witness: the sample auto-mode device resolves hour 2 of Monday to
the Eco slot and hence to `eco_temp`, and flipped to manual mode it
returns the plain setpoint. -/
theorem effective_target_by_mode_witness :
    devAuto.get_effective_target_temperature 0 2 = devAuto.eco_temp ∧
      devWarm.get_effective_target_temperature 0 2 = devWarm.temp :=
  ⟨(effective_target_by_mode devAuto 0 2).1 rfl,
    (effective_target_by_mode devWarm 0 2).2 rfl⟩

/-- C2: over both wire shapes of the schedule, the slot lookup returns
Comfort exactly when the day string holds C at the hour index and Eco
exactly when it holds E (hence Unset on any other character), and it
returns Unset when the schedule is empty, when the day entry is missing,
and when the day string is too short to index the hour. -/
theorem schedule_slot_lookup (s : String) (dow hour : ℕ) (days : List JVal)
    (entries : List (String × JVal)) (hlen : s.data.length = 24)
    (hchars : ∀ c ∈ s.data, c = 'C' ∨ c = 'E' ∨ c = 'O') (hhour : hour < 24) :
    (days.get? dow = some (JVal.str s) →
      ((get_current_schedule_mode (JVal.arr days) dow hour = ScheduleMode.COMFORT ↔
          s.data.get? hour = some 'C')
        ∧ (get_current_schedule_mode (JVal.arr days) dow hour = ScheduleMode.ECO ↔
          s.data.get? hour = some 'E')))
  ∧ (List.lookup (toString dow) entries = some (JVal.str s) →
      ((get_current_schedule_mode (JVal.obj entries) dow hour = ScheduleMode.COMFORT ↔
          s.data.get? hour = some 'C')
        ∧ (get_current_schedule_mode (JVal.obj entries) dow hour = ScheduleMode.ECO ↔
          s.data.get? hour = some 'E')))
  ∧ get_current_schedule_mode (JVal.arr []) dow hour = ScheduleMode.NONE
  ∧ (List.lookup (toString dow) entries = none →
      get_current_schedule_mode (JVal.obj entries) dow hour = ScheduleMode.NONE)
  ∧ (days.get? dow = none →
      get_current_schedule_mode (JVal.arr days) dow hour = ScheduleMode.NONE)
  ∧ (∀ s2 : String, days.get? dow = some (JVal.str s2) → s2.data.length ≤ hour →
      get_current_schedule_mode (JVal.arr days) dow hour = ScheduleMode.NONE) := by
  have hs : s ≠ "" := by
    intro hempty
    rw [hempty] at hlen
    simp at hlen
  have hget : ∃ c, s.data.get? hour = some c := by
    refine ⟨s.data.get ⟨hour, ?_⟩, List.get?_eq_get ?_⟩ <;> omega
  obtain ⟨c, hc⟩ := hget
  have hcore :
      (if s = "" then ScheduleMode.NONE
        else
          match s.data.get? hour with
          | none => ScheduleMode.NONE
          | some c =>
            if c = 'C' then ScheduleMode.COMFORT
            else if c = 'E' then ScheduleMode.ECO
            else ScheduleMode.NONE) =
        (if c = 'C' then ScheduleMode.COMFORT
          else if c = 'E' then ScheduleMode.ECO
          else ScheduleMode.NONE) := by
    rw [if_neg hs, hc]
  have hiff : ∀ m : ScheduleMode,
      m = (if c = 'C' then ScheduleMode.COMFORT
        else if c = 'E' then ScheduleMode.ECO else ScheduleMode.NONE) →
      ((m = ScheduleMode.COMFORT ↔ s.data.get? hour = some 'C')
        ∧ (m = ScheduleMode.ECO ↔ s.data.get? hour = some 'E')) := by
    intro m hm
    subst hm
    rw [hc]
    by_cases hC : c = 'C'
    · subst hC; simp
    · by_cases hE : c = 'E'
      · subst hE; simp
      · simp [hC, hE]
  refine ⟨?_, ?_, rfl, ?_, ?_, ?_⟩
  · intro h
    exact hiff _ (by rw [get_mode_arr days dow hour s h, hcore])
  · intro h
    exact hiff _ (by rw [get_mode_obj entries dow hour s h, hcore])
  · intro h
    cases entries with
    | nil => rfl
    | cons e l =>
      simp only [get_current_schedule_mode, JVal.truthy, h]
      simp
  · intro h
    cases days with
    | nil => rfl
    | cons e l =>
      simp only [get_current_schedule_mode, JVal.truthy, h]
      simp
  · intro s2 h hshort
    rw [get_mode_arr days dow hour s2 h]
    have : s2.data.get? hour = none := List.get?_eq_none.mpr hshort
    rw [this]
    split <;> rfl

/-- C2 witness: the sample week schedule evaluated at three hours of
Monday, plus the empty-schedule and missing-day cases. -/
theorem schedule_slot_lookup_witness :
    get_current_schedule_mode sampleSchedule 0 0 = ScheduleMode.COMFORT
  ∧ get_current_schedule_mode sampleSchedule 0 2 = ScheduleMode.ECO
  ∧ get_current_schedule_mode sampleSchedule 0 5 = ScheduleMode.NONE
  ∧ get_current_schedule_mode (JVal.arr []) 0 5 = ScheduleMode.NONE
  ∧ get_current_schedule_mode sampleSchedule 1 5 = ScheduleMode.NONE := by
  have h := schedule_slot_lookup "CCEEOOOOOOOOOOOOOOOOOOOO" 0 0
    [JVal.str "CCEEOOOOOOOOOOOOOOOOOOOO"] [] (by decide) (by decide) (by decide)
  have h2 := schedule_slot_lookup "CCEEOOOOOOOOOOOOOOOOOOOO" 0 2
    [JVal.str "CCEEOOOOOOOOOOOOOOOOOOOO"] [] (by decide) (by decide) (by decide)
  have h5 := schedule_slot_lookup "CCEEOOOOOOOOOOOOOOOOOOOO" 0 5
    [JVal.str "CCEEOOOOOOOOOOOOOOOOOOOO"] [] (by decide) (by decide) (by decide)
  have h15 := schedule_slot_lookup "CCEEOOOOOOOOOOOOOOOOOOOO" 1 5
    [JVal.str "CCEEOOOOOOOOOOOOOOOOOOOO"] [] (by decide) (by decide) (by decide)
  refine ⟨((h.1 rfl).1).mpr rfl, ((h2.1 rfl).2).mpr rfl, ?_, h5.2.2.1, h15.2.2.2.2.1 rfl⟩
  have hC := (h5.1 rfl).1
  have hE := (h5.1 rfl).2
  cases hmode : get_current_schedule_mode sampleSchedule 0 5 with
  | COMFORT => exact absurd (hC.mp hmode) (by decide)
  | ECO => exact absurd (hE.mp hmode) (by decide)
  | NONE => rfl

/-- C3: turning a manual-mode device off issues, on the legacy backend,
exactly the neutral-temperature PATCH followed by the power-off PATCH,
with the second PATCH suppressed and the first failure returned when the
first PATCH fails; on the Nexa backend it issues exactly one WebSocket
write. -/
theorem off_from_manual_sequence (d : RointeDevice) (dow hour : ℕ)
    (outcomes : ℕ → ApiResponse) (hmode : d.mode = JVal.str "manual") :
    ((outcomes 0).success = true →
      set_device_mode false true d "off" dow hour outcomes =
        some ([WriteOp.patch [("temp", JVal.num 20)],
          WriteOp.patch
            [("power", JVal.bool false), ("mode", JVal.str "manual"),
              ("status", JVal.str "off")]],
          outcomes 1))
  ∧ ((outcomes 0).success = false →
      set_device_mode false true d "off" dow hour outcomes =
        some ([WriteOp.patch [("temp", JVal.num 20)]], outcomes 0))
  ∧ set_device_mode true true d "off" dow hour outcomes =
      some ([WriteOp.ws
        [("status", JVal.str "off"), ("mode", JVal.num 0), ("power", JVal.num 1)]],
        outcomes 0) := by
  refine ⟨fun hok => ?_, fun hfail => ?_, rfl⟩
  · simp [set_device_mode, hmode, JVal.pyEq, hok]
  · simp [set_device_mode, hmode, JVal.pyEq, hfail]

/-- C3 witness: the sequence evaluated with an all-success transport and
with a first-write-fails transport. -/
theorem off_from_manual_sequence_witness :
    set_device_mode false true devWarm "off" 0 0 allOk =
      some ([WriteOp.patch [("temp", JVal.num 20)],
        WriteOp.patch
          [("power", JVal.bool false), ("mode", JVal.str "manual"),
            ("status", JVal.str "off")]],
        allOk 1)
  ∧ set_device_mode false true devWarm "off" 0 0 firstFails =
      some ([WriteOp.patch [("temp", JVal.num 20)]], firstFails 0) :=
  ⟨(off_from_manual_sequence devWarm 0 0 allOk rfl).1 rfl,
    (off_from_manual_sequence devWarm 0 0 firstFails rfl).2.1 rfl⟩

/-- C4 counterexample to the claim as stated: a powered-on device whose
probe reads above its effective target but whose stale `status_warming`
still says 2 makes both the Heating binary sensor and the device model
heating flag report heating. -/
theorem heating_indicator_counterexample :
    devWarm.power = true
  ∧ devWarm.get_effective_target_temperature 0 0 ≤ devWarm.temp_probe
  ∧ heating_sensor_value devWarm = true
  ∧ devWarm.heating = true := by
  refine ⟨rfl, ?_, rfl, rfl⟩
  show (20 : ℚ) ≤ 25
  norm_num

/-- C4 amended: only the climate `hvac_action` derives heating state from
the temperature differential (idle whenever the device is powered and
the probe is at or above the effective target, whatever
`status_warming` holds); the Heating binary sensor and the device model
heating flag report heating exactly when `status_warming == 2`,
irrespective of the temperatures. -/
theorem heating_indicators (d : RointeDevice) (dow hour : ℕ) :
    (d.power = true →
      d.get_effective_target_temperature dow hour ≤ d.temp_probe →
      hvac_action d dow hour = HVACAct.IDLE)
  ∧ heating_sensor_value d = (d.status_warming == 2)
  ∧ d.heating = (d.status_warming == 2) := by
  refine ⟨fun hp hle => ?_, rfl, rfl⟩
  simp only [hvac_action, hp]
  rw [if_neg (by simp), if_pos hle]

/-- C4 amended witness: the indicators evaluated on the stale-status
sample device. -/
theorem heating_indicators_witness :
    hvac_action devWarm 0 0 = HVACAct.IDLE
  ∧ heating_sensor_value devWarm = (devWarm.status_warming == 2) :=
  ⟨(heating_indicators devWarm 0 0).1 rfl (by show (20 : ℚ) ≤ 25; norm_num),
    (heating_indicators devWarm 0 0).2.1⟩

/-- C9: whether a device is built by the constructor or refreshed by
`update_data`, a product version other than v2 forces the user-mode
bounds to zero and the user-mode switch off regardless of the payload,
and `user_mode_supported` holds exactly for product version v2. -/
theorem user_mode_gating (pv serialnumber device_id : String) (data : RawData)
    (d : RointeDevice) :
    (update_data pv serialnumber device_id data = some d →
      ((d.product_version ≠ "v2" →
          d.um_max_temp = 0 ∧ d.um_min_temp = 0 ∧ d.user_mode = false)
        ∧ (d.user_mode_supported = true ↔ d.product_version = "v2")))
  ∧ (init_device device_id serialnumber data = some d →
      ((d.product_version ≠ "v2" →
          d.um_max_temp = 0 ∧ d.um_min_temp = 0 ∧ d.user_mode = false)
        ∧ (d.user_mode_supported = true ↔ d.product_version = "v2"))) := by
  have main : ∀ pv2 : String, update_data pv2 serialnumber device_id data = some d →
      ((d.product_version ≠ "v2" →
          d.um_max_temp = 0 ∧ d.um_min_temp = 0 ∧ d.user_mode = false)
        ∧ (d.user_mode_supported = true ↔ d.product_version = "v2")) := by
    intro pv2 hd
    unfold update_data at hd
    simp only [Option.bind_eq_some] at hd
    obtain ⟨temp, h1, temp_probe, h2, comfort_temp, h3, eco_temp, h4, ice_temp, h5,
      um, h6, status_warming, h7, hmk⟩ := hd
    simp only [Option.some.injEq] at hmk
    subst hmk
    refine ⟨fun hne => ?_, ?_⟩
    · rw [if_neg (by simpa using hne)] at h6
      simp only [Option.some.injEq] at h6
      subst h6
      exact ⟨rfl, rfl, rfl⟩
    · simp [RointeDevice.user_mode_supported]
  refine ⟨main pv, fun hd => ?_⟩
  unfold init_device at hd
  split at hd
  · exact main _ hd
  · exact absurd hd (by simp)

/-- C9 witness: a v1 payload carrying user-mode values still yields a
device with zeroed user-mode bounds, a disabled user-mode switch, and no
user-mode support. -/
theorem user_mode_gating_witness :
    devV1.um_max_temp = 0 ∧ devV1.um_min_temp = 0 ∧ devV1.user_mode = false :=
  (((user_mode_gating "v1" "SN-9" "dev-9" payloadV1 devV1).1 rfl).1) (by decide)

/-- C6: with any non-200 legacy login status, backend auto tries the Nexa
flow after the legacy attempt and reports its success, or a failure when
Nexa also fails, while backend rointe reports the failure for that
status without ever attempting Nexa. -/
theorem auth_fallback (legacy_status : ℕ) (tok : Bool) (nexa_result : ApiResponse)
    (hst : legacy_status ≠ 200) :
    (login_user "auto" legacy_status tok nexa_result).1 =
      [LoginAttempt.legacy, LoginAttempt.nexa]
  ∧ (nexa_result.success = true →
      (login_user "auto" legacy_status tok nexa_result).2 = nexa_result)
  ∧ (nexa_result.success = false →
      (login_user "auto" legacy_status tok nexa_result).2.success = false)
  ∧ (login_user "rointe" legacy_status tok nexa_result).1 = [LoginAttempt.legacy]
  ∧ LoginAttempt.nexa ∉ (login_user "rointe" legacy_status tok nexa_result).1
  ∧ (login_user "rointe" legacy_status tok nexa_result).2 =
      ApiResponse.mk false
        (some (if legacy_status = 400 then "Authentication returned 400 (Bad Request)"
          else "Authentication returned: " ++ toString legacy_status)) := by
  refine ⟨?_, fun hok => ?_, fun hfail => ?_, ?_, ?_, ?_⟩
  · cases hsucc : nexa_result.success <;> simp [login_user, hst, hsucc]
  · simp [login_user, hst, hok]
  · simp [login_user, hst, hfail]
  · simp [login_user, hst]
  · simp [login_user, hst]
  · simp [login_user, hst]

/-- C6 witness: a legacy HTTP 400 with a failing Nexa flow, on both
backend selections. -/
theorem auth_fallback_witness :
    (login_user "auto" 400 false (ApiResponse.mk false (some "Nexa login returned 400"))).1 =
      [LoginAttempt.legacy, LoginAttempt.nexa]
  ∧ (login_user "rointe" 400 false (ApiResponse.mk false (some "Nexa login returned 400"))).1 =
      [LoginAttempt.legacy] :=
  ⟨(auth_fallback 400 false (ApiResponse.mk false (some "Nexa login returned 400"))
      (by decide)).1,
    (auth_fallback 400 false (ApiResponse.mk false (some "Nexa login returned 400"))
      (by decide)).2.2.2.1⟩

/-- C10: every temperature write also forces manual mode and power on:
the legacy PATCH body carries the temperature together with mode manual
and power true, and the Nexa WebSocket payload carries the temperature
together with mode 0 and power 2. -/
theorem temp_write_forces_manual_power (d : RointeDevice) (t : ℚ)
    (outcomes : ℕ → ApiResponse) :
    (∃ body, set_device_temp false true d t outcomes =
        some ([WriteOp.patch body], outcomes 0)
      ∧ ("temp", JVal.num t) ∈ body ∧ ("mode", JVal.str "manual") ∈ body
      ∧ ("power", JVal.bool true) ∈ body)
  ∧ (∃ fields, set_device_temp true true d t outcomes =
        some ([WriteOp.ws fields], outcomes 0)
      ∧ ("temp", JVal.num t) ∈ fields ∧ ("mode", JVal.num 0) ∈ fields
      ∧ ("power", JVal.num 2) ∈ fields) := by
  constructor
  · exact ⟨[("temp", JVal.num t), ("mode", JVal.str "manual"), ("power", JVal.bool true)],
      rfl, by simp, by simp, by simp⟩
  · refine ⟨[("temp", JVal.num t), ("status", JVal.str "none"), ("mode", JVal.num 0),
      ("power", JVal.num 2)], rfl, by simp, by simp, by simp⟩

/-- Auxiliary: Python bankers rounding lands within half a unit of its
argument. -/
theorem pyRound_close (q : ℚ) : |(pyRound q : ℚ) - q| ≤ 1 / 2 := by
  have h0 : 0 ≤ Int.fract q := Int.fract_nonneg q
  have h1 : Int.fract q < 1 := Int.fract_lt_one q
  have key : (⌊q⌋ : ℚ) - q = -Int.fract q := by rw [Int.fract]; ring
  have key2 : ((⌊q⌋ + 1 : ℤ) : ℚ) - q = 1 - Int.fract q := by
    push_cast
    rw [Int.fract]
    ring
  unfold pyRound
  split_ifs with ha hb hc
  · rw [key, abs_neg, abs_of_nonneg h0]
    linarith
  · rw [key2, abs_of_nonneg (by linarith)]
    linarith
  · have hhalf : Int.fract q = 1 / 2 := le_antisymm (not_lt.mp hb) (not_lt.mp ha)
    rw [key, abs_neg, abs_of_nonneg h0, hhalf]
  · have hhalf : Int.fract q = 1 / 2 := le_antisymm (not_lt.mp hb) (not_lt.mp ha)
    rw [key2, abs_of_nonneg (by linarith), hhalf]
    norm_num

/-- C5: a requested temperature outside the inclusive range [7, 40] makes
the write fail before anything is transmitted, and an in-range request
transmits a half-degree multiple within a quarter degree of the request
(the nearest half-degree step); in particular 21.3 is transmitted as
21.5 and 6.9 fails. -/
theorem write_temperature_rounding (t : ℚ) :
    (¬ (RADIATOR_TEMP_MIN ≤ t ∧ t ≤ RADIATOR_TEMP_MAX) →
      async_set_temperature t = Except.error "Invalid set_temperature value")
  ∧ ((RADIATOR_TEMP_MIN ≤ t ∧ t ≤ RADIATOR_TEMP_MAX) →
      ∃ v : ℚ, async_set_temperature t = Except.ok v
        ∧ (∃ n : ℤ, v = (n : ℚ) / 2) ∧ |v - t| ≤ 1 / 4)
  ∧ async_set_temperature (213 / 10) = Except.ok (43 / 2)
  ∧ async_set_temperature (69 / 10) = Except.error "Invalid set_temperature value" := by
  refine ⟨fun h => ?_, fun h => ?_, ?_, ?_⟩
  · unfold async_set_temperature
    rw [if_pos h]
  · unfold async_set_temperature
    rw [if_neg (not_not_intro h)]
    refine ⟨_, rfl, ⟨pyRound (t * 2), rfl⟩, ?_⟩
    have hcl := pyRound_close (t * 2)
    have hsplit : (pyRound (t * 2) : ℚ) / 2 - t = ((pyRound (t * 2) : ℚ) - t * 2) / 2 := by
      ring
    rw [hsplit, abs_div, abs_two]
    linarith
  · have hf : ⌊(213 : ℚ) / 5⌋ = 42 := by
      rw [Int.floor_eq_iff]
      constructor <;> norm_num
    have hr : pyRound ((213 : ℚ) / 10 * 2) = 43 := by
      rw [show (213 : ℚ) / 10 * 2 = 213 / 5 by norm_num]
      unfold pyRound
      simp only [Int.fract, hf]
      norm_num
    unfold async_set_temperature
    rw [if_neg (not_not_intro (by norm_num [RADIATOR_TEMP_MIN, RADIATOR_TEMP_MAX]))]
    rw [hr]
    norm_num
  · unfold async_set_temperature
    rw [if_pos (by norm_num [RADIATOR_TEMP_MIN, RADIATOR_TEMP_MAX])]

/-- C5 witness: an in-range request evaluated through the rounding
branch. -/
theorem write_temperature_rounding_witness :
    ∃ v : ℚ, async_set_temperature (43 / 2) = Except.ok v
      ∧ (∃ n : ℤ, v = (n : ℚ) / 2) ∧ |v - 43 / 2| ≤ 1 / 4 :=
  (write_temperature_rounding (43 / 2)).2.1
    (by norm_num [RADIATOR_TEMP_MIN, RADIATOR_TEMP_MAX])

/-- C7: with a usable snapshot, a device in a known zone with positive
zone cost is attributed (zoneCost / totalCost) * totalEnergy divided by
the zone device count, and a device whose zone is unknown falls back to
the total energy divided by the device count over all known zones. -/
theorem nexa_energy_attribution (stats : NexaEnergyStats)
    (device_zone_map : List (String × String))
    (zone_device_map : List (String × List String)) (serial zone_id : String)
    (devs : List String) (hc : 0 < stats.cost) (hz : stats.zones ≠ []) :
    (List.lookup serial device_zone_map = some zone_id → zone_id ≠ "" →
      0 < find_zone_cost stats.zones zone_id →
      List.lookup zone_id zone_device_map = some devs → devs ≠ [] →
      get_device_energy_from_nexa_stats stats device_zone_map zone_device_map serial =
        Except.ok (find_zone_cost stats.zones zone_id / stats.cost * stats.energy /
          (devs.length : ℚ)))
  ∧ (List.lookup serial device_zone_map = none →
      0 < (zone_device_map.map (fun p => p.2.length)).sum →
      get_device_energy_from_nexa_stats stats device_zone_map zone_device_map serial =
        Except.ok (stats.energy / (((zone_device_map.map (fun p => p.2.length)).sum : ℕ) : ℚ))) := by
  have hguard : ¬ (stats.cost ≤ 0 ∨ stats.zones.isEmpty = true) := by
    rw [not_or]
    exact ⟨not_le.mpr hc, by simp [hz]⟩
  constructor
  · intro h1 h2 h3 h4 h5
    have hzid : (if zone_id = "" then (none : Option String) else some zone_id) =
        some zone_id := if_neg h2
    have hempty : devs.isEmpty = false := by simp [h5]
    unfold get_device_energy_from_nexa_stats
    rw [if_neg hguard]
    simp only [h1, hzid, h4, Option.getD_some, hempty]
    rw [if_neg (not_le.mpr h3)]
    simp
  · intro h1 h2
    unfold get_device_energy_from_nexa_stats
    rw [if_neg hguard]
    simp only [h1]
    rw [if_pos h2]

/-- C7 witness: the worked example with total cost 100, total energy
50 kWh, zone A of cost 40 holding two devices; device X in zone A gets
10 kWh. -/
theorem nexa_energy_attribution_witness :
    get_device_energy_from_nexa_stats statsSample dzmSample zdmSample "X" =
      Except.ok 10 := by
  have hfz : find_zone_cost statsSample.zones "A" = 40 := rfl
  have h := (nexa_energy_attribution statsSample dzmSample zdmSample "X" "A" ["X", "Y"]
    (by norm_num [statsSample]) (by simp [statsSample])).1 rfl (by decide)
    (by rw [hfz]; norm_num) rfl (by decide)
  rw [h, hfz]
  norm_num [statsSample]

/-- C8 counterexample to the claim as stated: on a degenerate snapshot
the failure message is capitalized, so the result is not the
lowercase-quoted message of the claim. -/
theorem degenerate_snapshot_message_counterexample :
    get_device_energy_from_nexa_stats statsDegenerate dzmSample zdmSample "X" =
      Except.error "No cost data to estimate energy"
  ∧ get_device_energy_from_nexa_stats statsDegenerate dzmSample zdmSample "X" ≠
      Except.error "no cost data to estimate energy" := by
  refine ⟨rfl, fun heq => ?_⟩
  rw [show get_device_energy_from_nexa_stats statsDegenerate dzmSample zdmSample "X" =
    Except.error "No cost data to estimate energy" from rfl] at heq
  exact absurd heq (by decide)

/-- C8 amended: a cached snapshot with non-positive total cost or no
zones makes the per-device estimate fail with the message
No cost data to estimate energy (so no degenerate snapshot ever yields a
silent zero or a division by zero). -/
theorem degenerate_snapshot_fails (stats : NexaEnergyStats)
    (device_zone_map : List (String × String))
    (zone_device_map : List (String × List String)) (serial : String)
    (h : stats.cost ≤ 0 ∨ stats.zones = []) :
    get_device_energy_from_nexa_stats stats device_zone_map zone_device_map serial =
      Except.error "No cost data to estimate energy" := by
  unfold get_device_energy_from_nexa_stats
  rw [if_pos]
  rcases h with h | h
  · exact Or.inl h
  · exact Or.inr (by simp [h])

/-- C8 amended witness: the zero-cost snapshot. -/
theorem degenerate_snapshot_fails_witness :
    get_device_energy_from_nexa_stats statsDegenerate dzmSample zdmSample "X" =
      Except.error "No cost data to estimate energy" :=
  degenerate_snapshot_fails statsDegenerate dzmSample zdmSample "X"
    (Or.inl (by norm_num [statsDegenerate]))

end Rointe
